import Mathlib

/-!
Verification of `util/testutil/integration/dockerd.go` (package `integration`).

The development shallowly embeds the parts of the file that the properties
under study mention: the readiness poller `waitForAPI`, the bootstrap
sequence of `moby.New` with its deferred cleanup, the `multiCloser`
release-action tracker (whose definition lives outside the provided file and
is therefore modelled from the specification), and the relay accept loop with
its per-connection forwarding goroutines.

Go side effects are made explicit: an `Env` oracle fixes the outcome of every
fallible call, and each embedded function returns the observable trace
(registered release actions, executed release actions, acquired resources,
spawned forwarders, closed connections) alongside its Go return values.
-/

set_option autoImplicit false

namespace BuildkitDockerd

/-- Outcome of one run of the readiness-polling loop: whether it returned
`nil` (`ok`), how many times the health check (`apiClient.Ping`) was called,
and how many times `time.Sleep(step)` ran. -/
structure WaitResult where
  ok : Bool
  calls : Nat
  sleeps : Nat
deriving DecidableEq, Repr

/-- Shallow embedding of the loop of `waitForAPI` (dockerd.go lines 217-231)
with the fixed `step = 50ms` baked in, durations in milliseconds.  `ping k`
tells whether the `k`-th call of `apiClient.Ping` returns no error.  `i` is
the source's failed-attempt counter, starting at 0; `sleeps` accumulates the
`time.Sleep(step)` calls executed so far.  Each iteration pings (call number
`i + 1`), breaks on success, otherwise increments `i`, returns the timeout
error once `i * 50 > d`, and else sleeps and retries. -/
def waitLoop (ping : Nat → Bool) (d i sleeps : Nat) : WaitResult :=
  if ping (i + 1) then ⟨true, i + 1, sleeps⟩
  else if (i + 1) * 50 > d then ⟨false, i + 1, sleeps⟩
  else waitLoop ping d (i + 1) (sleeps + 1)
termination_by d / 50 + 1 - i
decreasing_by omega

/-- Shallow embedding of `waitForAPI` (dockerd.go lines 217-231): run the
polling loop from `i = 0` with no sleeps performed yet. -/
def waitForAPI (ping : Nat → Bool) (d : Nat) : WaitResult :=
  waitLoop ping d 0 0

theorem waitLoop_eq (ping : Nat → Bool) (d i sleeps : Nat) :
    waitLoop ping d i sleeps =
      if ping (i + 1) then ⟨true, i + 1, sleeps⟩
      else if (i + 1) * 50 > d then ⟨false, i + 1, sleeps⟩
      else waitLoop ping d (i + 1) (sleeps + 1) := by
  rw [waitLoop]

theorem waitLoop_ok_iff (ping : Nat → Bool) (d : Nat) :
    ∀ n i sleeps, d / 50 + 1 - i = n → i ≤ d / 50 →
      ((waitLoop ping d i sleeps).ok = true ↔
        ∃ k, i + 1 ≤ k ∧ k ≤ d / 50 + 1 ∧ ping k = true) := by
  intro n
  induction n using Nat.strong_induction_on with
  | _ n ih =>
    intro i sleeps hn hi
    rw [waitLoop_eq]
    by_cases hp : ping (i + 1) = true
    · rw [if_pos hp]
      exact iff_of_true rfl ⟨i + 1, le_refl _, by omega, hp⟩
    · rw [if_neg hp]
      by_cases ht : (i + 1) * 50 > d
      · rw [if_pos ht]
        refine iff_of_false (by simp) ?_
        rintro ⟨k, hk1, hk2, hpk⟩
        have hk : k = i + 1 := by omega
        subst hk
        exact hp hpk
      · rw [if_neg ht]
        have hi' : i + 1 ≤ d / 50 := by omega
        have hrec := ih (d / 50 + 1 - (i + 1)) (by omega) (i + 1) (sleeps + 1) rfl hi'
        rw [hrec]
        constructor
        · rintro ⟨k, hk1, hk2, hpk⟩
          exact ⟨k, by omega, hk2, hpk⟩
        · rintro ⟨k, hk1, hk2, hpk⟩
          rcases Nat.eq_or_lt_of_le hk1 with h | h
          · exact absurd hpk (h ▸ hp)
          · exact ⟨k, h, hk2, hpk⟩

theorem waitLoop_timeout (ping : Nat → Bool) (d : Nat) :
    ∀ n i sleeps, d / 50 + 1 - i = n → i ≤ d / 50 →
      (∀ k, i + 1 ≤ k → k ≤ d / 50 + 1 → ping k = false) →
      waitLoop ping d i sleeps = ⟨false, d / 50 + 1, sleeps + (d / 50 - i)⟩ := by
  intro n
  induction n using Nat.strong_induction_on with
  | _ n ih =>
    intro i sleeps hn hi hall
    rw [waitLoop_eq]
    have hp : ¬ ping (i + 1) = true := by
      simp [hall (i + 1) (le_refl _) (by omega)]
    rw [if_neg hp]
    by_cases ht : (i + 1) * 50 > d
    · rw [if_pos ht]
      have hdiv : ¬ (i + 1 ≤ d / 50) := by omega
      have hieq : i = d / 50 := by omega
      subst hieq
      simp
    · rw [if_neg ht]
      have hi' : i + 1 ≤ d / 50 := by omega
      have hrec := ih (d / 50 + 1 - (i + 1)) (by omega) (i + 1) (sleeps + 1) rfl hi'
        (fun k hk1 hk2 => hall k (by omega) hk2)
      rw [hrec]
      have : sleeps + 1 + (d / 50 - (i + 1)) = sleeps + (d / 50 - i) := by omega
      rw [this]

theorem waitLoop_success (ping : Nat → Bool) (d : Nat) :
    ∀ n i sleeps, d / 50 + 1 - i = n →
      (waitLoop ping d i sleeps).ok = true →
      ping (waitLoop ping d i sleeps).calls = true ∧
      (∀ j, i + 1 ≤ j → j < (waitLoop ping d i sleeps).calls → ping j = false) ∧
      (waitLoop ping d i sleeps).sleeps
        = sleeps + ((waitLoop ping d i sleeps).calls - (i + 1)) ∧
      i + 1 ≤ (waitLoop ping d i sleeps).calls := by
  intro n
  induction n using Nat.strong_induction_on with
  | _ n ih =>
    intro i sleeps hn hok
    rw [waitLoop_eq] at hok ⊢
    by_cases hp : ping (i + 1) = true
    · rw [if_pos hp]
      exact ⟨hp, fun j hj1 hj2 => by simp at hj2; exact absurd hj2 (by omega),
        by simp, le_refl _⟩
    · rw [if_neg hp] at hok ⊢
      by_cases ht : (i + 1) * 50 > d
      · rw [if_pos ht] at hok
        simp at hok
      · rw [if_neg ht] at hok ⊢
        obtain ⟨h1, h2, h3, h4⟩ := ih (d / 50 + 1 - (i + 1))
          (by omega) (i + 1) (sleeps + 1) rfl hok
        refine ⟨h1, ?_, by omega, by omega⟩
        intro j hj1 hj2
        rcases Nat.eq_or_lt_of_le hj1 with h | h
        · simpa [← h] using hp
        · exact h2 j h hj2

/-- C5: with its fixed 50ms interval, `waitForAPI` returns nil exactly when
the health check succeeds on one of its first `d / 50 + 1` calls; success on
the very first call incurs no sleep; a never-succeeding check makes it fail
after exactly `d / 50 + 1` attempts with `d / 50` sleeps (for `d = 200`: 5
attempts, 4 sleeps); on success it stops at the first successful call, having
slept once per preceding failed attempt. -/
theorem waitForAPI_spec (ping : Nat → Bool) (d : Nat) :
    ((waitForAPI ping d).ok = true ↔
      ∃ k, 1 ≤ k ∧ k ≤ d / 50 + 1 ∧ ping k = true) ∧
    (ping 1 = true → waitForAPI ping d = ⟨true, 1, 0⟩) ∧
    ((∀ k, 1 ≤ k → k ≤ d / 50 + 1 → ping k = false) →
      waitForAPI ping d = ⟨false, d / 50 + 1, d / 50⟩) ∧
    ((waitForAPI ping d).ok = true →
      ping (waitForAPI ping d).calls = true ∧
      (∀ j, 1 ≤ j → j < (waitForAPI ping d).calls → ping j = false) ∧
      (waitForAPI ping d).sleeps = (waitForAPI ping d).calls - 1) := by
  refine ⟨?_, ?_, ?_, ?_⟩
  · exact waitLoop_ok_iff ping d _ 0 0 rfl (Nat.zero_le _)
  · intro h1
    rw [waitForAPI, waitLoop_eq, if_pos h1]
  · intro h
    have := waitLoop_timeout ping d _ 0 0 rfl (Nat.zero_le _) h
    simpa [waitForAPI] using this
  · intro h
    simp only [waitForAPI] at h ⊢
    obtain ⟨h1, h2, h3, h4⟩ := waitLoop_success ping d _ 0 0 rfl h
    exact ⟨h1, fun j hj1 hj2 => h2 j hj1 hj2, by omega⟩

/-- Witness for C5: a never-succeeding check with deadline 200ms makes 5
attempts and 4 sleeps; an always-succeeding check returns after 1 call and 0
sleeps; a check succeeding on its 3rd call returns nil. -/
theorem waitForAPI_spec_witness :
    waitForAPI (fun _ => false) 200 = ⟨false, 5, 4⟩ ∧
    waitForAPI (fun _ => true) 200 = ⟨true, 1, 0⟩ ∧
    (waitForAPI (fun k => k == 3) 200).ok = true :=
  ⟨(waitForAPI_spec (fun _ => false) 200).2.2.1 (fun _ _ _ => rfl),
   (waitForAPI_spec (fun _ => true) 200).2.1 rfl,
   ((waitForAPI_spec (fun k => k == 3) 200).1).2 ⟨3, by decide, by decide, rfl⟩⟩

/-- Identifiers of the release actions that `moby.New` registers with the
`multiCloser` tracker (dockerd.go lines 116, 146, 156, 178): the errgroup
wait `proxyGroup.Wait`, the daemon stop `d.StopWithError`, the client close
`dockerAPI.Close`, and the listener close `listener.Close`. -/
inductive Closer where
  | groupWait
  | stopDaemon
  | closeClient
  | closeListener
deriving DecidableEq, Repr

/-- Resources acquired during the bootstrap sequence of `moby.New`: the temp
work directory (`os.MkdirTemp`, line 118), the started daemon process
(`d.StartWithError`, line 142), the API client (`client.NewClientWithOpts`,
line 152), the temp file reserving a socket name (`os.CreateTemp`, line 166),
and the local Unix listener (`net.Listen`, line 174). -/
inductive Resource where
  | workDir
  | daemonProcess
  | apiClient
  | tempSocketFile
  | localListener
deriving DecidableEq, Repr

/-- Which resource each registered release action releases, read off the
source: `d.StopWithError` stops the daemon process, `dockerAPI.Close` closes
the API client, `listener.Close` closes the local listener, and
`proxyGroup.Wait` releases no resource (it waits for spawned goroutines). -/
def Closer.releases : Closer → Option Resource
  | .groupWait => none
  | .stopDaemon => some Resource.daemonProcess
  | .closeClient => some Resource.apiClient
  | .closeListener => some Resource.localListener

/-- Errors `moby.New` can return, one constructor per fallible step, each
carrying the underlying error text.  Wrapping (`errors.Wrapf` /
`errors.Errorf`, as on lines 76, 125, 149, 160, 176) is reflected by the
constructor applied to the step's underlying error. -/
inductive Err where
  | preconditionUnmet (e : String)
  | configLoad (e : String)
  | marshalFailed (e : String)
  | mkdirTempFailed (e : String)
  | newDaemonFailed (e : String)
  | writeConfigFailed (e : String)
  | daemonStartFailed (e : String)
  | sockWaitTimeout (e : String)
  | clientConstruction (e : String)
  | readinessTimeout (e : String)
  | createTempFailed (e : String)
  | listenFailed (e : String)
deriving DecidableEq, Repr

/-- Oracle fixing the outcome of every fallible external call made by
`moby.New` in one run: `none` means the call succeeds, `some e` that it fails
with error text `e`.  `listenerAddr` is `listener.Addr().String()` and
`closerErr` gives the result of running each registered release action. -/
structure Env where
  requireRootErr : Option String
  loadConfigErr : Option String
  marshalErr : Option String
  mkdirTempErr : Option String
  newDaemonErr : Option String
  writeFileErr : Option String
  startDaemonErr : Option String
  waitUnixErr : Option String
  newClientErr : Option String
  waitForAPIErr : Option String
  createTempErr : Option String
  listenErr : Option String
  listenerAddr : String
  closerErr : Closer → Option String

/-- Modelled from the spec: the `multiCloser` type used by `moby.New` is not
part of the provided file.  Per the spec (section 4.1), it keeps "an internal
ordered list" of release actions to which `append` adds at the end; its state
is that list in registration order. -/
structure MultiCloser where
  fns : List Closer
deriving DecidableEq, Repr

/-- Modelled from the spec: `multiCloser.append` appends a release action to
the internal ordered list. -/
def MultiCloser.append (mc : MultiCloser) (c : Closer) : MultiCloser :=
  ⟨mc.fns ++ [c]⟩

/-- Result of one call of the aggregate release function obtained from
`multiCloser.F()`: the error it returns (the first individual failure, if
any), the sequence of release actions it executed in execution order, and the
successor tracker state. -/
structure ReleaseRun where
  err : Option String
  executed : List Closer
  state : MultiCloser
deriving Repr

/-- Modelled from the spec: the aggregate release function from
`multiCloser.F()` "invokes every registered action in reverse registration
order, continuing through individual action failures (collecting but not
aborting on them), and becomes a no-op on any subsequent call"; the first
individual failure is kept as the returned error and the list is emptied so
that later calls run nothing. -/
def releaseAll (env : Env) (mc : MultiCloser) : ReleaseRun :=
  ⟨(mc.fns.reverse.filterMap env.closerErr).head?, mc.fns.reverse, ⟨[]⟩⟩

/-- The `backend` value built on the success path of `moby.New` (dockerd.go
lines 209-214), with exactly the four fields the composite literal sets. -/
structure Backend where
  address : String
  rootless : Bool
  isDockerd : Bool
  unsupportedFeatures : List String
deriving DecidableEq, Repr

/-- The `moby` worker struct (dockerd.go lines 55-59). -/
structure Moby where
  name : String
  rootless : Bool
  unsupported : List String

/-- Observable outcome of one run of `moby.New`: the returned backend (`none`
for the `nil` interface), the returned teardown handle (`some mc` means the
returned `cl` wraps `releaseAll` over tracker state `mc`; `none` means `cl`
is nil), the returned error, the resources successfully acquired in order,
the tracker's registration list at return time, the release actions executed
by the deferred cleanup before returning, and the resources released inline
(not via the tracker). -/
structure NewOutcome where
  backend : Option Backend
  teardown : Option MultiCloser
  error : Option Err
  acquired : List Resource
  registered : List Closer
  unwound : List Closer
  inlineReleased : List Resource
deriving Repr

/-- Failure path of `moby.New` at a step reached after the deferred cleanup
(dockerd.go lines 108-113) is installed: the defer sees a non-nil `err`, runs
`deferF.F()()` (discarding its result) and sets `cl = nil`; the caller gets
`(nil, nil, e)` with `e` the step's error. -/
def unwind (env : Env) (mc : MultiCloser) (acq : List Resource)
    (inl : List Resource) (e : Err) : NewOutcome :=
  ⟨none, none, some e, acq, mc.fns, (releaseAll env mc).executed, inl⟩

/-- Shallow embedding of `moby.New` (dockerd.go lines 69-215).  The three
steps before the tracker exists (`requireRoot`, `config.LoadFile`,
`json.Marshal`) return directly on failure; every later step fails through
`unwind`.  Registrations happen exactly where the source calls
`deferF.append`: `proxyGroup.Wait` right after the tracker is created,
`d.StopWithError` after a successful start, `dockerAPI.Close` after client
construction, `listener.Close` after a successful listen.  The temp socket
file is closed and removed inline (lines 170-172) right after creation. -/
def mobyNew (c : Moby) (env : Env) : NewOutcome :=
  match env.requireRootErr with
  | some e => ⟨none, none, some (Err.preconditionUnmet e), [], [], [], []⟩
  | none =>
  match env.loadConfigErr with
  | some e => ⟨none, none, some (Err.configLoad e), [], [], [], []⟩
  | none =>
  match env.marshalErr with
  | some e => ⟨none, none, some (Err.marshalFailed e), [], [], [], []⟩
  | none =>
  let mc1 := MultiCloser.append ⟨[]⟩ Closer.groupWait
  match env.mkdirTempErr with
  | some e => unwind env mc1 [] [] (Err.mkdirTempFailed e)
  | none =>
  let acq1 := [Resource.workDir]
  match env.newDaemonErr with
  | some e => unwind env mc1 acq1 [] (Err.newDaemonFailed e)
  | none =>
  match env.writeFileErr with
  | some e => unwind env mc1 acq1 [] (Err.writeConfigFailed e)
  | none =>
  match env.startDaemonErr with
  | some e => unwind env mc1 acq1 [] (Err.daemonStartFailed e)
  | none =>
  let mc2 := mc1.append Closer.stopDaemon
  let acq2 := acq1 ++ [Resource.daemonProcess]
  match env.waitUnixErr with
  | some e => unwind env mc2 acq2 [] (Err.sockWaitTimeout e)
  | none =>
  match env.newClientErr with
  | some e => unwind env mc2 acq2 [] (Err.clientConstruction e)
  | none =>
  let mc3 := mc2.append Closer.closeClient
  let acq3 := acq2 ++ [Resource.apiClient]
  match env.waitForAPIErr with
  | some e => unwind env mc3 acq3 [] (Err.readinessTimeout e)
  | none =>
  match env.createTempErr with
  | some e => unwind env mc3 acq3 [] (Err.createTempFailed e)
  | none =>
  let acq4 := acq3 ++ [Resource.tempSocketFile]
  let inl4 := [Resource.tempSocketFile]
  match env.listenErr with
  | some e => unwind env mc3 acq4 inl4 (Err.listenFailed e)
  | none =>
  let mc4 := mc3.append Closer.closeListener
  ⟨some ⟨"unix://" ++ env.listenerAddr, c.rootless, true, c.unsupported⟩,
   some mc4, none, acq4 ++ [Resource.localListener], mc4.fns, [], inl4⟩

/-- The fallible steps of `moby.New` reached after the tracker and its
deferred cleanup are installed, in program order. -/
inductive Step where
  | mkdirTemp
  | newDaemon
  | writeFile
  | startDaemon
  | waitUnixSock
  | newClient
  | waitAPI
  | createTemp
  | listen
deriving DecidableEq, Repr

/-- The error `moby.New` returns when a given step fails with underlying
error text `e`. -/
def stepErr : Step → String → Err
  | .mkdirTemp, e => Err.mkdirTempFailed e
  | .newDaemon, e => Err.newDaemonFailed e
  | .writeFile, e => Err.writeConfigFailed e
  | .startDaemon, e => Err.daemonStartFailed e
  | .waitUnixSock, e => Err.sockWaitTimeout e
  | .newClient, e => Err.clientConstruction e
  | .waitAPI, e => Err.readinessTimeout e
  | .createTemp, e => Err.createTempFailed e
  | .listen, e => Err.listenFailed e

/-- Release actions registered with the tracker at the moment a given step
runs. -/
def closersAt : Step → List Closer
  | .mkdirTemp | .newDaemon | .writeFile | .startDaemon => [Closer.groupWait]
  | .waitUnixSock | .newClient => [Closer.groupWait, Closer.stopDaemon]
  | .waitAPI | .createTemp | .listen =>
      [Closer.groupWait, Closer.stopDaemon, Closer.closeClient]

/-- Resources acquired before a given step runs. -/
def acquiredAt : Step → List Resource
  | .mkdirTemp => []
  | .newDaemon | .writeFile | .startDaemon => [Resource.workDir]
  | .waitUnixSock | .newClient => [Resource.workDir, Resource.daemonProcess]
  | .waitAPI | .createTemp =>
      [Resource.workDir, Resource.daemonProcess, Resource.apiClient]
  | .listen =>
      [Resource.workDir, Resource.daemonProcess, Resource.apiClient,
       Resource.tempSocketFile]

/-- Resources released inline before a given step runs. -/
def inlineAt : Step → List Resource
  | .listen => [Resource.tempSocketFile]
  | _ => []

/-- The three pre-tracker calls of `moby.New` succeed. -/
def preSucceeds (env : Env) : Prop :=
  env.requireRootErr = none ∧ env.loadConfigErr = none ∧ env.marshalErr = none

/-- The run described by `env` has its first failure exactly at acquisition
step `s`, with underlying error text `e`: the pre-tracker calls and every
step before `s` succeed and `s` fails. -/
def FailsAt (env : Env) (s : Step) (e : String) : Prop :=
  preSucceeds env ∧
  match s with
  | .mkdirTemp => env.mkdirTempErr = some e
  | .newDaemon => env.mkdirTempErr = none ∧ env.newDaemonErr = some e
  | .writeFile => env.mkdirTempErr = none ∧ env.newDaemonErr = none ∧
      env.writeFileErr = some e
  | .startDaemon => env.mkdirTempErr = none ∧ env.newDaemonErr = none ∧
      env.writeFileErr = none ∧ env.startDaemonErr = some e
  | .waitUnixSock => env.mkdirTempErr = none ∧ env.newDaemonErr = none ∧
      env.writeFileErr = none ∧ env.startDaemonErr = none ∧
      env.waitUnixErr = some e
  | .newClient => env.mkdirTempErr = none ∧ env.newDaemonErr = none ∧
      env.writeFileErr = none ∧ env.startDaemonErr = none ∧
      env.waitUnixErr = none ∧ env.newClientErr = some e
  | .waitAPI => env.mkdirTempErr = none ∧ env.newDaemonErr = none ∧
      env.writeFileErr = none ∧ env.startDaemonErr = none ∧
      env.waitUnixErr = none ∧ env.newClientErr = none ∧
      env.waitForAPIErr = some e
  | .createTemp => env.mkdirTempErr = none ∧ env.newDaemonErr = none ∧
      env.writeFileErr = none ∧ env.startDaemonErr = none ∧
      env.waitUnixErr = none ∧ env.newClientErr = none ∧
      env.waitForAPIErr = none ∧ env.createTempErr = some e
  | .listen => env.mkdirTempErr = none ∧ env.newDaemonErr = none ∧
      env.writeFileErr = none ∧ env.startDaemonErr = none ∧
      env.waitUnixErr = none ∧ env.newClientErr = none ∧
      env.waitForAPIErr = none ∧ env.createTempErr = none ∧
      env.listenErr = some e

/-- Every fallible call in the run described by `env` succeeds. -/
def AllSucceed (env : Env) : Prop :=
  env.requireRootErr = none ∧ env.loadConfigErr = none ∧
  env.marshalErr = none ∧ env.mkdirTempErr = none ∧
  env.newDaemonErr = none ∧ env.writeFileErr = none ∧
  env.startDaemonErr = none ∧ env.waitUnixErr = none ∧
  env.newClientErr = none ∧ env.waitForAPIErr = none ∧
  env.createTempErr = none ∧ env.listenErr = none

/-- One iteration's worth of inputs to the relay accept loop: either
`listener.Accept` returns a connection (with the outcome of the subsequent
`dockerAPI.DialHijack` call), or it returns an error.  `duringTeardown`
records whether the accept error was caused by the listener being closed by
teardown; the loop body cannot and does not inspect it. -/
inductive AcceptEvent where
  | conn (dialErr : Option String)
  | acceptFailed (duringTeardown : Bool) (e : String)
deriving DecidableEq, Repr

/-- Shallow embedding of the accept-loop goroutine body (dockerd.go lines
180-207) applied to the finite sequence of accept outcomes observed so far.
Returns `none` when the loop is still blocked in `listener.Accept` after
consuming all events, or `some r` when it returned with `r` (`r = none`
being a nil return), together with the number of accepted connections for
which a backend stream was dialled and the pair of forwarding goroutines
spawned.  On an accept error the loop returns nil, ignoring the error; on a
`DialHijack` error it returns that error. -/
def acceptLoop : List AcceptEvent → Option (Option String) × Nat
  | [] => (none, 0)
  | AcceptEvent.acceptFailed _ _ :: _ => (some none, 0)
  | AcceptEvent.conn (some e) :: _ => (some (some e), 0)
  | AcceptEvent.conn none :: rest =>
      let r := acceptLoop rest
      (r.1, r.2 + 1)

/-- The two ends between which each accepted connection's pair of forwarding
goroutines copies bytes: the accepted local connection `tmpConn` and the
upgraded backend stream `conn`. -/
inductive Endpoint where
  | localConn
  | backendConn
deriving DecidableEq, Repr

/-- What one forwarding goroutine did: the error it returned to the errgroup
and the connections it closed. -/
structure ForwardOutcome where
  ret : Option String
  closed : List Endpoint
deriving DecidableEq, Repr

/-- Shallow embedding of the local-to-backend forwarding goroutine
(dockerd.go lines 192-198): `io.Copy(conn, tmpConn)` reads from the local
connection; on a copy error the goroutine returns that error, closing
nothing; otherwise it returns `tmpConn.Close()`, closing the local
connection it was reading from. -/
def forwardLocalToBackend (copyErr closeErr : Option String) : ForwardOutcome :=
  match copyErr with
  | some e => ⟨some e, []⟩
  | none => ⟨closeErr, [Endpoint.localConn]⟩

/-- Shallow embedding of the backend-to-local forwarding goroutine
(dockerd.go lines 199-205): `io.Copy(tmpConn, conn)` reads from the backend
stream; on a copy error the goroutine returns that error, closing nothing;
otherwise it returns `conn.Close()`, closing the backend stream it was
reading from. -/
def forwardBackendToLocal (copyErr closeErr : Option String) : ForwardOutcome :=
  match copyErr with
  | some e => ⟨some e, []⟩
  | none => ⟨closeErr, [Endpoint.backendConn]⟩

/-- Worker value used to instantiate theorems at concrete inputs, with the
fields of the first registered worker (dockerd.go lines 22-44) abbreviated. -/
def mobyW : Moby :=
  ⟨"dockerd", false, ["cache export", "cache import", "oci exporter"]⟩

/-- Environment of a run in which every fallible call succeeds. -/
def envOK : Env :=
  ⟨none, none, none, none, none, none, none, none, none, none, none, none,
   "/tmp/bk-sock", fun _ => none⟩

/-- Environment of a run in which everything succeeds until `waitForAPI`
fails, and in which every release action also fails when executed. -/
def envFailAPI : Env :=
  ⟨none, none, none, none, none, none, none, none, none, some "ping failed",
   none, none, "/tmp/bk-sock", fun _ => some "close failed"⟩

theorem mobyNew_cases (c : Moby) (env : Env) :
    ((mobyNew c env).error.isSome →
      (mobyNew c env).unwound = (mobyNew c env).registered.reverse ∧
      (mobyNew c env).teardown = none ∧ (mobyNew c env).backend = none) ∧
    ((mobyNew c env).error = none →
      (mobyNew c env).registered =
        [Closer.groupWait, Closer.stopDaemon, Closer.closeClient,
         Closer.closeListener] ∧
      (mobyNew c env).unwound = [] ∧
      (mobyNew c env).teardown =
        some ⟨[Closer.groupWait, Closer.stopDaemon, Closer.closeClient,
               Closer.closeListener]⟩ ∧
      (mobyNew c env).backend =
        some ⟨"unix://" ++ env.listenerAddr, c.rootless, true,
              c.unsupported⟩ ∧
      (mobyNew c env).acquired =
        [Resource.workDir, Resource.daemonProcess, Resource.apiClient,
         Resource.tempSocketFile, Resource.localListener] ∧
      (mobyNew c env).inlineReleased = [Resource.tempSocketFile]) := by
  unfold mobyNew
  repeat' split
  all_goals simp [unwind, releaseAll, MultiCloser.append]

/-- C1: in every bootstrap run whose first failure is at an acquisition step
`s` (reached after the tracker and its deferred cleanup are installed),
`moby.New` returns nil backend, nil teardown handle and exactly the failing
step's error — never a teardown error, whatever the release actions return —
and the deferred cleanup has run the aggregate release, executing the
registered release actions in reverse order, before returning. -/
theorem new_failure_unwinds (c : Moby) (env : Env) (s : Step) (e : String)
    (h : FailsAt env s e) :
    mobyNew c env =
      ⟨none, none, some (stepErr s e), acquiredAt s, closersAt s,
       (closersAt s).reverse, inlineAt s⟩ := by
  obtain ⟨⟨h1, h2, h3⟩, hs⟩ := h
  cases s <;>
    simp_all [mobyNew, unwind, releaseAll, MultiCloser.append, stepErr,
      closersAt, acquiredAt, inlineAt]

/-- Witness for C1: the readiness check fails after three successful
acquisitions; the caller gets `(nil, nil, readiness error)` even though every
release action fails, and the three registered actions were unwound in
reverse order. -/
theorem new_failure_unwinds_witness :
    mobyNew mobyW envFailAPI =
      ⟨none, none, some (Err.readinessTimeout "ping failed"),
       [Resource.workDir, Resource.daemonProcess, Resource.apiClient],
       [Closer.groupWait, Closer.stopDaemon, Closer.closeClient],
       [Closer.closeClient, Closer.stopDaemon, Closer.groupWait], []⟩ :=
  new_failure_unwinds mobyW envFailAPI Step.waitAPI "ping failed"
    ⟨⟨rfl, rfl, rfl⟩, rfl, rfl, rfl, rfl, rfl, rfl, rfl⟩

/-- C4: the aggregate release executes exactly the registered release
actions, each exactly once, in strict reverse registration order; during
unwind the deferred cleanup does exactly that, and after a successful
bootstrap the registration order is group wait, daemon stop, client close,
listener close, so teardown executes them reversed. -/
theorem release_reverse_order (c : Moby) (env : Env) :
    (∀ mc : MultiCloser, (releaseAll env mc).executed = mc.fns.reverse ∧
      ∀ a, ((releaseAll env mc).executed).count a = mc.fns.count a) ∧
    ((mobyNew c env).error.isSome →
      (mobyNew c env).unwound = (mobyNew c env).registered.reverse) ∧
    ((mobyNew c env).error = none →
      (mobyNew c env).registered =
        [Closer.groupWait, Closer.stopDaemon, Closer.closeClient,
         Closer.closeListener] ∧
      (releaseAll env ⟨(mobyNew c env).registered⟩).executed =
        [Closer.closeListener, Closer.closeClient, Closer.stopDaemon,
         Closer.groupWait]) := by
  refine ⟨fun mc => ⟨rfl, fun a => by simp [releaseAll]⟩,
    fun h => ((mobyNew_cases c env).1 h).1, fun h => ?_⟩
  have h2 := (mobyNew_cases c env).2 h
  refine ⟨h2.1, ?_⟩
  rw [h2.1]
  rfl

/-- Witness for C4: concrete successful and failing runs exhibiting the
reverse-order execution. -/
theorem release_reverse_order_witness :
    (mobyNew mobyW envOK).registered =
      [Closer.groupWait, Closer.stopDaemon, Closer.closeClient,
       Closer.closeListener] ∧
    (releaseAll envOK ⟨(mobyNew mobyW envOK).registered⟩).executed =
      [Closer.closeListener, Closer.closeClient, Closer.stopDaemon,
       Closer.groupWait] ∧
    (mobyNew mobyW envFailAPI).unwound =
      (mobyNew mobyW envFailAPI).registered.reverse :=
  ⟨((release_reverse_order mobyW envOK).2.2 rfl).1,
   ((release_reverse_order mobyW envOK).2.2 rfl).2,
   (release_reverse_order mobyW envFailAPI).2.1 rfl⟩

/-- C8: after a successful bootstrap the errgroup wait is the first release
action registered with the tracker, and during teardown it is executed last,
after the listener close (which is executed first). -/
theorem group_wait_last (c : Moby) (env env2 : Env)
    (h : (mobyNew c env).error = none) :
    (mobyNew c env).registered.head? = some Closer.groupWait ∧
    (releaseAll env2 ⟨(mobyNew c env).registered⟩).executed =
      [Closer.closeListener, Closer.closeClient, Closer.stopDaemon,
       Closer.groupWait] ∧
    (releaseAll env2 ⟨(mobyNew c env).registered⟩).executed.getLast? =
      some Closer.groupWait := by
  have h2 := (mobyNew_cases c env).2 h
  rw [h2.1]
  exact ⟨rfl, rfl, rfl⟩

/-- Witness for C8 at a concrete successful run. -/
theorem group_wait_last_witness :
    (mobyNew mobyW envOK).registered.head? = some Closer.groupWait ∧
    (releaseAll envOK ⟨(mobyNew mobyW envOK).registered⟩).executed =
      [Closer.closeListener, Closer.closeClient, Closer.stopDaemon,
       Closer.groupWait] ∧
    (releaseAll envOK ⟨(mobyNew mobyW envOK).registered⟩).executed.getLast? =
      some Closer.groupWait :=
  group_wait_last mobyW envOK envOK rfl

/-- C9: the teardown handle returned by a successful `moby.New` wraps the
aggregate release over the tracker; its first call empties the tracker, and
any subsequent call executes no release action (none is run a second time)
and returns no error. -/
theorem teardown_idempotent (c : Moby) (env env2 env3 : Env)
    (mc : MultiCloser) (h : (mobyNew c env).teardown = some mc) :
    (releaseAll env2 mc).state = ⟨[]⟩ ∧
    (releaseAll env3 (releaseAll env2 mc).state).executed = [] ∧
    (releaseAll env3 (releaseAll env2 mc).state).err = none ∧
    ∀ a, a ∈ (releaseAll env2 mc).executed →
      a ∉ (releaseAll env3 (releaseAll env2 mc).state).executed := by
  refine ⟨rfl, rfl, rfl, fun a _ ha => ?_⟩
  simp [releaseAll] at ha

/-- Witness for C9 at the handle returned by a concrete successful run. -/
theorem teardown_idempotent_witness :
    (releaseAll envOK ⟨[Closer.groupWait, Closer.stopDaemon,
        Closer.closeClient, Closer.closeListener]⟩).state = ⟨[]⟩ ∧
    (releaseAll envOK (releaseAll envOK ⟨[Closer.groupWait, Closer.stopDaemon,
        Closer.closeClient, Closer.closeListener]⟩).state).executed = [] ∧
    (releaseAll envOK (releaseAll envOK ⟨[Closer.groupWait, Closer.stopDaemon,
        Closer.closeClient, Closer.closeListener]⟩).state).err = none ∧
    ∀ a, a ∈ (releaseAll envOK ⟨[Closer.groupWait, Closer.stopDaemon,
        Closer.closeClient, Closer.closeListener]⟩).executed →
      a ∉ (releaseAll envOK (releaseAll envOK ⟨[Closer.groupWait,
        Closer.stopDaemon, Closer.closeClient,
        Closer.closeListener]⟩).state).executed :=
  teardown_idempotent mobyW envOK envOK envOK
    ⟨[Closer.groupWait, Closer.stopDaemon, Closer.closeClient,
      Closer.closeListener]⟩ rfl

/-- C10: whenever `moby.New` returns with a nil error, the returned backend
is `unix://` concatenated with the listener address, carries the worker's
rootless flag, has `isDockerd = true`, lists the worker's unsupported
features, and comes with a non-nil teardown handle. -/
theorem new_success_backend (c : Moby) (env : Env)
    (h : (mobyNew c env).error = none) :
    (mobyNew c env).backend =
      some ⟨"unix://" ++ env.listenerAddr, c.rootless, true,
            c.unsupported⟩ ∧
    (mobyNew c env).teardown ≠ none := by
  have h2 := (mobyNew_cases c env).2 h
  refine ⟨h2.2.2.2.1, ?_⟩
  rw [h2.2.2.1]
  exact Option.some_ne_none _

/-- Witness for C10 at a concrete successful run. -/
theorem new_success_backend_witness :
    (mobyNew mobyW envOK).backend =
      some ⟨"unix://" ++ envOK.listenerAddr, mobyW.rootless, true,
            mobyW.unsupported⟩ ∧
    (mobyNew mobyW envOK).teardown ≠ none :=
  new_success_backend mobyW envOK rfl

/-- C6 counterexample: in a fully successful bootstrap the temp work
directory is acquired, yet no release action registered with the tracker
releases it — it is the one acquired resource with no registered release. -/
theorem workdir_unregistered_cex :
    Resource.workDir ∈ (mobyNew mobyW envOK).acquired ∧
    ∀ a ∈ (mobyNew mobyW envOK).registered,
      Closer.releases a ≠ some Resource.workDir := by
  decide

/-- C6 amended: on a successful bootstrap, each acquired resource other than
the temp work directory is covered — the daemon stop, client close and
listener close are registered with the tracker right after the respective
acquisitions and the temp socket file is released inline — but the temp work
directory has no release action registered. -/
theorem acquisitions_registered (c : Moby) (env : Env)
    (h : (mobyNew c env).error = none) :
    (mobyNew c env).acquired =
      [Resource.workDir, Resource.daemonProcess, Resource.apiClient,
       Resource.tempSocketFile, Resource.localListener] ∧
    (mobyNew c env).registered =
      [Closer.groupWait, Closer.stopDaemon, Closer.closeClient,
       Closer.closeListener] ∧
    (mobyNew c env).inlineReleased = [Resource.tempSocketFile] ∧
    (∀ r ∈ (mobyNew c env).acquired, r ≠ Resource.workDir →
      (∃ a ∈ (mobyNew c env).registered, Closer.releases a = some r) ∨
      r ∈ (mobyNew c env).inlineReleased) ∧
    (∀ a ∈ (mobyNew c env).registered,
      Closer.releases a ≠ some Resource.workDir) := by
  obtain ⟨hr, hu, ht, hb, ha, hi⟩ := (mobyNew_cases c env).2 h
  refine ⟨ha, hr, hi, ?_, ?_⟩
  · rw [ha, hr, hi]
    decide
  · rw [hr]
    decide

/-- Witness for the amended C6 at a concrete successful run. -/
theorem acquisitions_registered_witness :
    (mobyNew mobyW envOK).acquired =
      [Resource.workDir, Resource.daemonProcess, Resource.apiClient,
       Resource.tempSocketFile, Resource.localListener] ∧
    (mobyNew mobyW envOK).registered =
      [Closer.groupWait, Closer.stopDaemon, Closer.closeClient,
       Closer.closeListener] ∧
    (mobyNew mobyW envOK).inlineReleased = [Resource.tempSocketFile] ∧
    (∀ r ∈ (mobyNew mobyW envOK).acquired, r ≠ Resource.workDir →
      (∃ a ∈ (mobyNew mobyW envOK).registered, Closer.releases a = some r) ∨
      r ∈ (mobyNew mobyW envOK).inlineReleased) ∧
    (∀ a ∈ (mobyNew mobyW envOK).registered,
      Closer.releases a ≠ some Resource.workDir) :=
  acquisitions_registered mobyW envOK rfl

/-- C2 counterexample: with a `DialHijack` failure on the first accepted
connection the accept loop returns the dial error and the subsequently
accepted connection is not served, whereas without the failure both
connections are served. -/
theorem dial_failure_halts_cex :
    acceptLoop [AcceptEvent.conn (some "hijack failed"),
        AcceptEvent.conn none] = (some (some "hijack failed"), 0) ∧
    acceptLoop [AcceptEvent.conn none, AcceptEvent.conn none] = (none, 2) :=
  ⟨rfl, rfl⟩

/-- C2 amended: a `DialHijack` failure for an accepted connection makes the
accept-loop goroutine return that error, halting the accept loop; no
connection accepted after the failure is served. -/
theorem dial_failure_halts (e : String) (rest : List AcceptEvent) :
    acceptLoop (AcceptEvent.conn (some e) :: rest) = (some (some e), 0) :=
  rfl

/-- C3 counterexample: an accept error not caused by an intentional teardown
close still makes the accept loop exit with no reported error. -/
theorem accept_error_swallowed_cex :
    acceptLoop [AcceptEvent.acceptFailed false "connection aborted"]
      = (some none, 0) :=
  rfl

/-- C3 amended: every error returned by `listener.Accept` makes the accept
loop return nil, whether or not the listener was intentionally closed during
teardown; no accept error is ever surfaced. -/
theorem accept_error_swallowed (b : Bool) (e : String)
    (rest : List AcceptEvent) :
    acceptLoop (AcceptEvent.acceptFailed b e :: rest) = (some none, 0) :=
  rfl

/-- C7 counterexample: on clean end-of-stream the local-to-backend forwarder
closes the local connection it was reading from — not the backend stream,
which is what the opposite-direction task reads from — and on a copy error
it closes nothing at all. -/
theorem forwarder_close_cex :
    (forwardLocalToBackend none none).closed = [Endpoint.localConn] ∧
    Endpoint.backendConn ∉ (forwardLocalToBackend none none).closed ∧
    (forwardLocalToBackend (some "connection reset") none).closed = [] :=
  ⟨rfl, by decide, rfl⟩

/-- C7 amended: each forwarding task, upon clean end-of-stream on the
connection it reads from, closes exactly that connection (the one its peer
task writes to) and returns the close result; upon a copy error it closes
nothing and returns the copy error. -/
theorem forwarder_close_behavior (copyE : String) (closeE : Option String) :
    forwardLocalToBackend none closeE = ⟨closeE, [Endpoint.localConn]⟩ ∧
    forwardBackendToLocal none closeE = ⟨closeE, [Endpoint.backendConn]⟩ ∧
    forwardLocalToBackend (some copyE) closeE = ⟨some copyE, []⟩ ∧
    forwardBackendToLocal (some copyE) closeE = ⟨some copyE, []⟩ :=
  ⟨rfl, rfl, rfl, rfl⟩

end BuildkitDockerd
